import Mathlib

/-!
Verification of the ibkr-web-proxy subscription multiplexer (src/main.py).

The development shallowly embeds the Python program:

* `SubscriptionManager` (src/main.py lines 29-55): the dict
  `active_connections : Dict[str, Set[WebSocket]]` becomes an association
  list from structured topic keys to channel lists with set semantics;
  `connect`, `disconnect` and `broadcast` are translated operation by
  operation.  Per-channel send failures are modelled by a boolean success
  predicate on channels; the bare `except:` around each
  `connection.send_text` is modelled in the `Except` monad.
* the `/ws/price/{conid}` handler (lines 347-381) becomes a step relation
  on a system state recording the registry, the set of attached
  `onPendingTickers` closures, the log of upstream `reqMktData` /
  `cancelMktData` calls, the log of `manager.broadcast` invocations and
  the log of successful per-channel deliveries.  Steps are the atomic
  blocks between await points of the single-threaded event loop: a
  connection that completes setup, a `WebSocketDisconnect` of a streaming
  client, and one `pendingTickersEvent` emission.
* the tick-to-message transforms of the price and order-book handlers
  (lines 362-371 and 432-439), with Python truthiness (`if t.last`,
  `if t.bid`) made explicit on optional numeric fields.
* the request-response handlers `get_accounts`, `search_contracts`,
  `load_data` (lines 83-88, 99-134, 194-254) and `health_check`
  (lines 451-460), with the upstream `ib` session abstracted to its
  connectivity flag and the async request methods to `Except`-valued
  functions supplied as parameters.
-/

namespace IbkrProxy

/-- A client websocket channel; each handler invocation owns one. -/
abbrev Chan := Nat

/-- Topic keys.  The source builds them as the f-strings
`price_{conid}`, `candles_{conid}_{interval}`, `orderbook_{conid}`;
the structured form keeps exactly the same information. -/
inductive Topic where
  | price (conid : Nat)
  | candles (conid : Nat) (interval : String)
  | orderbook (conid : Nat)
deriving DecidableEq

/-- `manager.active_connections : Dict[str, Set[WebSocket]]`.
A Python dict is an association list with unique keys (all operations
below read and write the first occurrence of a key, matching the one
slot a dict has per key); a Python set is a duplicate-free list. -/
abbrev ActiveConnections := List (Topic × List Chan)

namespace SubscriptionManager

/-- Dict lookup: `active_connections[t]` when present. -/
def lookup : ActiveConnections → Topic → Option (List Chan)
  | [], _ => Option.none
  | (t', l) :: rest, t => if t' = t then Option.some l else lookup rest t

/-- Dict store: `active_connections[t] = l` (replaces the first binding
of `t`, appends a new binding when `t` is absent, as a dict does). -/
def setTopic : ActiveConnections → Topic → List Chan → ActiveConnections
  | [], t, l => [(t, l)]
  | (t', l') :: rest, t, l =>
    if t' = t then (t, l) :: rest else (t', l') :: setTopic rest t l

/-- The registrant set of a topic (empty when the key is absent). -/
def registrants (sm : ActiveConnections) (t : Topic) : List Chan :=
  (lookup sm t).getD []

/-- Python `set.add`: membership insert. -/
def insertChan (l : List Chan) (c : Chan) : List Chan :=
  if c ∈ l then l else l ++ [c]

/-- `SubscriptionManager.connect` (lines 36-40): create the topic's set
when absent, then add the websocket.  (The `websocket.accept()` call has
no registry effect.) -/
def connect (sm : ActiveConnections) (t : Topic) (c : Chan) : ActiveConnections :=
  setTopic sm t (insertChan (registrants sm t) c)

/-- `SubscriptionManager.disconnect` (lines 42-44): if the topic key is
present, `discard` the websocket from its set. -/
def disconnect (sm : ActiveConnections) (t : Topic) (c : Chan) : ActiveConnections :=
  match lookup sm t with
  | Option.none => sm
  | Option.some l => setTopic sm t (l.filter (fun x => decide (x ≠ c)))

/-- `connection.send_text(...)`: succeeds or raises, per channel.  The
predicate `ok` says which channels accept the write. -/
def sendText (ok : Chan → Bool) (c : Chan) : Except String Unit :=
  if ok c then Except.ok () else Except.error ("send failed")

/-- The delivery loop of `broadcast` (lines 48-53), as the code writes
it: each send is attempted under `try`, a failure is caught by the bare
`except:` and the channel is recorded in `disconnected`; an exception
escaping the per-channel handler would abort the whole loop. -/
def deliverLoopE (ok : Chan → Bool) (acc : List Chan × List Chan) :
    List Chan → Except String (List Chan × List Chan)
  | [] => Except.ok acc
  | c :: rest =>
    match Except.tryCatch
        (Except.bind (sendText ok c) (fun _ => Except.ok (acc.1 ++ [c], acc.2)))
        (fun _ => Except.ok (acc.1, acc.2 ++ [c])) with
    | Except.ok acc' => deliverLoopE ok acc' rest
    | Except.error e => Except.error e

/-- The pure value of the delivery loop: channels delivered to, and
channels added to `disconnected`. -/
def deliverLoop (ok : Chan → Bool) (l : List Chan) : List Chan × List Chan :=
  (l.filter ok, l.filter (fun c => !(ok c)))

/-- `SubscriptionManager.broadcast` (lines 46-55): if the topic key is
present, attempt delivery to every registered channel, then `discard`
every channel whose send failed.  Returns the new registry and the list
of channels that received the message. -/
def broadcast (sm : ActiveConnections) (t : Topic) (ok : Chan → Bool) :
    ActiveConnections × List Chan :=
  match lookup sm t with
  | Option.none => (sm, [])
  | Option.some l =>
    let delivered := (deliverLoop ok l).1
    let disconnected := (deliverLoop ok l).2
    (disconnected.foldl (fun s c => disconnect s t c) sm, delivered)

end SubscriptionManager

/-! ### Tick-to-message transforms

The upstream `Ticker` carries numeric fields that may be unset; the
source tests them with Python truthiness (`if t.last`, `if t.bid`),
under which both an absent value and a value equal to `0` are falsy.
Numeric values are modelled as rationals; `Option.none` is an unset
field.  `bidSize`/`askSize` are read unguarded by the source, so they
are plain numbers here. -/

/-- One entry of `tickers` as the `onPendingTickers` callbacks read it. -/
structure Ticker where
  conId : Nat
  last : Option ℚ
  bid : Option ℚ
  ask : Option ℚ
  volume : Option ℚ
  bidSize : ℚ
  askSize : ℚ
deriving DecidableEq

/-- Python truthiness of an optional number: `None` and `0` are falsy. -/
def truthy : Option ℚ → Bool
  | Option.none => false
  | Option.some x => decide (x ≠ 0)

/-- `float(v) if v else 0` for an optional numeric field `v`. -/
def numOr0 (v : Option ℚ) : ℚ :=
  if truthy v then v.getD 0 else 0

/-- The price message of `websocket_price.onPendingTickers`
(lines 365-371). -/
structure PriceMsg where
  type : String
  conId : Nat
  price : ℚ
  bid : ℚ
  ask : ℚ
  volume : ℚ
deriving DecidableEq

/-- `websocket_price.onPendingTickers` for one ticker (lines 362-371):
a message is emitted only for the subscribed `conid`. -/
def pricePayload (conid : Nat) (t : Ticker) : Option PriceMsg :=
  if t.conId = conid then
    Option.some
      { type := "price", conId := conid, price := numOr0 t.last,
        bid := numOr0 t.bid, ask := numOr0 t.ask, volume := numOr0 t.volume }
  else Option.none

/-- One side entry of the order-book message. -/
structure BookLevel where
  price : ℚ
  quantity : ℚ
deriving DecidableEq

/-- The order-book message of `websocket_orderbook.onPendingTickers`
(lines 435-439). -/
structure BookMsg where
  type : String
  bids : List BookLevel
  asks : List BookLevel
deriving DecidableEq

/-- `websocket_orderbook.onPendingTickers` for one ticker
(lines 432-439): each side is a single top-of-book entry when the
side's price is truthy, otherwise the empty list. -/
def bookPayload (conid : Nat) (t : Ticker) : Option BookMsg :=
  if t.conId = conid then
    Option.some
      { type := "orderbook",
        bids :=
          if truthy t.bid then [{ price := t.bid.getD 0, quantity := t.bidSize }]
          else [],
        asks :=
          if truthy t.ask then [{ price := t.ask.getD 0, quantity := t.askSize }]
          else [] }
  else Option.none

/-- The order-book side the spec describes: a single `{price, quantity}`
entry built from a present and non-zero top-of-book price, the empty
list otherwise. -/
def specBookSide (v : Option ℚ) (size : ℚ) : List BookLevel :=
  match v with
  | Option.none => []
  | Option.some x => if x = 0 then [] else [{ price := x, quantity := size }]

/-- A ticker whose bid is present but equal to zero. -/
def zeroBidTicker : Ticker :=
  { conId := 5, last := Option.none, bid := Option.some 0,
    ask := Option.some 2, volume := Option.none, bidSize := 7, askSize := 1 }

/-! ### Lifecycle of the `/ws/price/{conid}` handler

`websocket_price` (lines 347-381) runs one coroutine per client:

1. `manager.connect(ws, f"price_{conid}")` — registers first;
2. `reqContractDetailsAsync` — empty result: `websocket.close()` and
   return, leaving the registration in place;
3. `ib.reqMktData(...)` and `ib.pendingTickersEvent += onPendingTickers`
   — done unconditionally by every client, not only the first;
4. idle loop; on `WebSocketDisconnect`: `manager.disconnect`,
   `ib.cancelMktData`, `pendingTickersEvent -= onPendingTickers`.

The system state logs the upstream subscribe/cancel calls, the attached
callback closures (one per streaming client), every `manager.broadcast`
invocation and every successful delivery.  Events are the atomic blocks
of the single-threaded event loop: a connect that runs to the idle loop
(or to the failed-resolution close), a disconnect of a streaming
client, and one `pendingTickersEvent` emission carrying the set of
channels whose send fails. -/

/-- Upstream market-data calls issued by the handler. -/
inductive UpCall where
  | reqMkt (conid : Nat)
  | cancelMkt (conid : Nat)
deriving DecidableEq

/-- External events driving the price-stream handlers. -/
inductive PEvent where
  | connect (c : Chan) (conid : Nat) (resolves : Bool)
  | disconnect (c : Chan) (conid : Nat)
  | tick (conid : Nat) (failChans : List Chan)
deriving DecidableEq

/-- Process state: the manager's registry, the closures attached to
`ib.pendingTickersEvent`, the log of upstream calls, the log of
`manager.broadcast` invocations by topic, and the log of successful
per-channel deliveries. -/
structure PriceSys where
  registry : ActiveConnections
  callbacks : List (Chan × Nat)
  upLog : List UpCall
  bLog : List Topic
  dLog : List (Topic × Chan)
deriving DecidableEq

def PriceSys.init : PriceSys :=
  { registry := [], callbacks := [], upLog := [], bLog := [], dLog := [] }

/-- One `onPendingTickers` closure firing for its `conid`: it calls
`manager.broadcast(f"price_{conid}", ...)`, which prunes channels whose
send fails. -/
def fireCallback (conid : Nat) (ok : Chan → Bool) (s : PriceSys) : PriceSys :=
  let t := Topic.price conid
  let r := SubscriptionManager.broadcast s.registry t ok
  { s with registry := r.1, bLog := s.bLog ++ [t],
           dLog := s.dLog ++ r.2.map (fun ch => (t, ch)) }

/-- One event of the `websocket_price` lifecycle. -/
def PriceSys.step (s : PriceSys) : PEvent → PriceSys
  | PEvent.connect c conid res =>
    -- line 349: register before resolving the instrument
    let reg := SubscriptionManager.connect s.registry (Topic.price conid) c
    if res then
      -- lines 358-373: resolution succeeded; every client issues its
      -- own reqMktData and attaches its own closure
      { s with registry := reg,
               upLog := s.upLog ++ [UpCall.reqMkt conid],
               callbacks := s.callbacks ++ [(c, conid)] }
    else
      -- lines 355-357: close and return; the registration stays
      { s with registry := reg }
  | PEvent.disconnect c conid =>
    -- lines 378-381: only a client in its idle loop sees
    -- WebSocketDisconnect; it unregisters, cancels the market data for
    -- its contract and detaches its own closure
    if (c, conid) ∈ s.callbacks then
      { s with
          registry := SubscriptionManager.disconnect s.registry (Topic.price conid) c,
          upLog := s.upLog ++ [UpCall.cancelMkt conid],
          callbacks := s.callbacks.filter (fun p => decide (p ≠ (c, conid))) }
    else s
  | PEvent.tick conid fails =>
    -- lines 362-371: every attached closure whose conid matches fires a
    -- broadcast for the topic
    (s.callbacks.filter (fun p => decide (p.2 = conid))).foldl
      (fun st _ => fireCallback conid (fun ch => decide (ch ∉ fails)) st) s

/-- Replay a list of events from a state. -/
def runFrom (s : PriceSys) : List PEvent → PriceSys
  | [] => s
  | e :: rest => runFrom (PriceSys.step s e) rest

/-- Replay a list of events from the initial state. -/
def priceRun (evs : List PEvent) : PriceSys := runFrom PriceSys.init evs

/-- `true` when no event of the list registers a client on `conid`. -/
def noConnectOn (evs : List PEvent) (conid : Nat) : Bool :=
  evs.all (fun e =>
    match e with
    | PEvent.connect _ n _ => decide (n ≠ conid)
    | _ => true)

/-- Two distinct clients both connect first-time on the empty topic
`price_100`. -/
def dupSubTrace : List PEvent :=
  [PEvent.connect 1 100 true, PEvent.connect 2 100 true]

/-- Client 1 disconnects while client 2 is still registered on the same
topic. -/
def cancelWhileRegisteredTrace : List PEvent :=
  [PEvent.connect 1 100 true, PEvent.connect 2 100 true, PEvent.disconnect 1 100]

/-- A state with clients 1 and 2 streaming `price_100`. -/
def twoClientsState : PriceSys :=
  priceRun [PEvent.connect 1 100 true, PEvent.connect 2 100 true]

/-- A single client whose instrument resolution returns nothing. -/
def failedResolveTrace : List PEvent := [PEvent.connect 1 100 false]

/-- Clients 1 and 2 stream `price_100`; a delivery failure prunes
client 2 from the registry without detaching its callback; then client
1 — at that point the only registered client — disconnects. -/
def staleCbPre : List PEvent :=
  [PEvent.connect 1 100 true, PEvent.connect 2 100 true, PEvent.tick 100 [2]]

def staleCbMid : List PEvent := staleCbPre ++ [PEvent.disconnect 1 100]

def staleCbFull : List PEvent := staleCbMid ++ [PEvent.tick 100 []]

def lastDiscPre : List PEvent := [PEvent.connect 1 100 true]

def lastDiscPost : List PEvent := [PEvent.tick 100 [], PEvent.connect 2 200 true]

/-! ### Request-response handlers

The handlers read the shared `ib` session.  It is abstracted to its
connectivity flag; its async request methods are `Except`-valued
functions passed as parameters (an `Except.error` is an exception the
awaited call raised). -/

/-- The upstream session surface the request-response handlers read. -/
structure Upstream where
  isConnected : Bool

/-- A handler outcome: a response body, or an
`HTTPException(status_code, detail)`. -/
inductive HResp (α : Type) where
  | ok (body : α)
  | httpError (status : Nat) (detail : String)
deriving DecidableEq

/-- The global `config` dict (lines 18-24). -/
structure Config where
  ib_host : String
  ib_port : Nat
  proxy_host : String
  proxy_port : Nat
  client_id : Nat

/-- The body returned by `/health` (lines 453-460). -/
structure HealthBody where
  status : String
  ib_connected : Bool
  ib_host : String
  ib_port : Nat
  proxy_host : String
  proxy_port : Nat
deriving DecidableEq

/-- `get_accounts` (lines 83-88); `managedAccounts` is the value
`ib.managedAccounts()` returns, rendered as `{id, accountId}` pairs. -/
def get_accounts (up : Upstream) (managedAccounts : List String) :
    HResp (List (String × String)) :=
  if !up.isConnected then HResp.httpError 503 ("Not connected")
  else HResp.ok (managedAccounts.map (fun acc => (acc, acc)))

/-- The pattern list of `search_contracts` (lines 108-110): the
uppercased symbol, plus wildcard variants for short symbols. -/
def search_patterns (symbol : String) : List String :=
  if symbol.length ≤ 3 then
    [symbol.toUpper, symbol.toUpper ++ ("*"), symbol.toUpper ++ ("?")]
  else [symbol.toUpper]

/-- The body of the per-contract loop (lines 119-123): append the
contract unless its conId was already seen.  Contracts are represented
by their conId.  The pair is `(all_results, seen_conids)`. -/
def dedupFold (acc : List Nat × List Nat) (conId : Nat) : List Nat × List Nat :=
  if conId ∈ acc.2 then acc else (acc.1 ++ [conId], acc.2 ++ [conId])

/-- The per-pattern loop of `search_contracts` (lines 115-127): a
pattern whose `reqMatchingSymbolsAsync` raises is logged and skipped
(`except ... continue`). -/
def collectMatches (reqMatching : String → Except String (List Nat))
    (patterns : List String) : List Nat × List Nat :=
  patterns.foldl
    (fun acc p =>
      match reqMatching p with
      | Except.ok contracts => contracts.foldl dedupFold acc
      | Except.error _ => acc)
    ([], [])

/-- `search_contracts` (lines 99-134).  The outer `except` (lines
132-134) returns `[]`; since the per-pattern loop already swallows its
own failures, both failure paths end in a success-class empty list. -/
def search_contracts (up : Upstream)
    (reqMatching : String → Except String (List Nat)) (symbol : String) :
    HResp (List Nat) :=
  if !up.isConnected then HResp.httpError 503 ("Not connected")
  else HResp.ok (collectMatches reqMatching (search_patterns symbol)).1

/-- One returned candle of `/loadData` (lines 240-247).  `bar.date` is
already rendered as unix seconds; the per-field `float(...)` casts are
value-preserving on numeric fields. -/
structure Candle where
  time : Nat
  open_ : ℚ
  high : ℚ
  low : ℚ
  close : ℚ
  volume : ℚ
deriving DecidableEq

/-- `load_data` (lines 194-254).  `reqContractDetails` returns the
contract list for a conId (an exception becomes the 500 branch of the
outer `except`); an empty detail list returns `[]`;
`reqHistoricalData full_contract duration barSize` fetches the bars.
`limit` is accepted and never used by the source (it is only logged). -/
def load_data (up : Upstream)
    (reqContractDetails : Nat → Except String (List Nat))
    (reqHistoricalData : Nat → String → String → Except String (List Candle))
    (conId : Nat) (interval : String) (limit : Nat) (duration : Option String) :
    HResp (List Candle) :=
  if !up.isConnected then HResp.httpError 503 ("Not connected")
  else
    match reqContractDetails conId with
    | Except.error e => HResp.httpError 500 e
    | Except.ok [] => HResp.ok []
    | Except.ok (full_contract :: _) =>
      match reqHistoricalData full_contract (duration.getD ("1 D")) interval with
      | Except.error e => HResp.httpError 500 e
      | Except.ok bars =>
        HResp.ok (bars.map (fun b =>
          { time := b.time, open_ := b.open_, high := b.high, low := b.low,
            close := b.close, volume := b.volume }))

/-- `health_check` (lines 451-460). -/
def health_check (up : Upstream) (cfg : Config) : HResp HealthBody :=
  HResp.ok
    { status := "healthy", ib_connected := up.isConnected,
      ib_host := cfg.ib_host, ib_port := cfg.ib_port,
      proxy_host := cfg.proxy_host, proxy_port := cfg.proxy_port }

/-- A matching-symbols request that always raises. -/
def failingMatching : String → Except String (List Nat) :=
  fun _ => Except.error ("boom")

/-! ### Basic registry lemmas -/

namespace SubscriptionManager

theorem lookup_setTopic_self (sm : ActiveConnections) (t : Topic) (l : List Chan) :
    lookup (setTopic sm t l) t = Option.some l := by
  induction sm with
  | nil => simp [setTopic, lookup]
  | cons hd rest ih =>
    obtain ⟨t', l'⟩ := hd
    by_cases h : t' = t
    · simp [setTopic, lookup, h]
    · simp [setTopic, lookup, h, ih]

theorem lookup_setTopic_ne (sm : ActiveConnections) (t t' : Topic) (l : List Chan)
    (h : t' ≠ t) : lookup (setTopic sm t l) t' = lookup sm t' := by
  induction sm with
  | nil => simp [setTopic, lookup, Ne.symm h]
  | cons hd rest ih =>
    obtain ⟨t0, l0⟩ := hd
    by_cases h0 : t0 = t
    · subst h0
      simp [setTopic, lookup, Ne.symm h]
    · simp [setTopic, lookup, h0, ih]

theorem setTopic_of_lookup_eq (sm : ActiveConnections) (t : Topic) (l : List Chan)
    (h : lookup sm t = Option.some l) : setTopic sm t l = sm := by
  induction sm with
  | nil => simp [lookup] at h
  | cons hd rest ih =>
    obtain ⟨t', l'⟩ := hd
    by_cases h0 : t' = t
    · subst h0
      simp [lookup] at h
      simp [setTopic, h]
    · simp [lookup, h0] at h
      simp [setTopic, h0, ih h]

theorem setTopic_setTopic (sm : ActiveConnections) (t : Topic) (l l' : List Chan) :
    setTopic (setTopic sm t l) t l' = setTopic sm t l' := by
  induction sm with
  | nil => simp [setTopic]
  | cons hd rest ih =>
    obtain ⟨t0, l0⟩ := hd
    by_cases h0 : t0 = t
    · simp [setTopic, h0]
    · simp [setTopic, h0, ih]

theorem registrants_setTopic_self (sm : ActiveConnections) (t : Topic) (l : List Chan) :
    registrants (setTopic sm t l) t = l := by
  simp [registrants, lookup_setTopic_self]

theorem registrants_setTopic_ne (sm : ActiveConnections) (t t' : Topic) (l : List Chan)
    (h : t' ≠ t) : registrants (setTopic sm t l) t' = registrants sm t' := by
  simp [registrants, lookup_setTopic_ne sm t t' l h]

theorem mem_insertChan_self (l : List Chan) (c : Chan) : c ∈ insertChan l c := by
  by_cases h : c ∈ l <;> simp [insertChan, h]

theorem insertChan_idem (l : List Chan) (c : Chan) :
    insertChan (insertChan l c) c = insertChan l c := by
  by_cases h : c ∈ l <;> simp [insertChan, h]

theorem registrants_connect_self (sm : ActiveConnections) (t : Topic) (c : Chan) :
    registrants (connect sm t c) t = insertChan (registrants sm t) c := by
  simp [connect, registrants_setTopic_self]

theorem registrants_connect_ne (sm : ActiveConnections) (t t' : Topic) (c : Chan)
    (h : t' ≠ t) : registrants (connect sm t c) t' = registrants sm t' := by
  simp [connect, registrants_setTopic_ne _ _ _ _ h]

theorem registrants_disconnect_self (sm : ActiveConnections) (t : Topic) (c : Chan) :
    registrants (disconnect sm t c) t
      = (registrants sm t).filter (fun x => decide (x ≠ c)) := by
  unfold disconnect
  cases h : lookup sm t with
  | none => simp [registrants, h]
  | some l => simp [registrants, h, lookup_setTopic_self]

theorem registrants_disconnect_ne (sm : ActiveConnections) (t t' : Topic) (c : Chan)
    (h : t' ≠ t) : registrants (disconnect sm t c) t' = registrants sm t' := by
  unfold disconnect
  cases h0 : lookup sm t with
  | none => rfl
  | some l => simp [registrants, lookup_setTopic_ne _ _ _ _ h]

/-! ### Broadcast lemmas -/

theorem length_filter_split (p : Chan → Bool) (l : List Chan) :
    (l.filter p).length + (l.filter (fun c => !(p c))).length = l.length := by
  induction l with
  | nil => rfl
  | cons a l ih => cases h : p a <;> simp [List.filter_cons, h] <;> omega

/-- The per-channel try/except in the delivery loop absorbs every send
failure: the loop always terminates normally with the delivered and
disconnected channels accumulated in order. -/
theorem deliverLoopE_eq_ok (ok : Chan → Bool) :
    ∀ (l : List Chan) (acc : List Chan × List Chan),
      deliverLoopE ok acc l
        = Except.ok (acc.1 ++ l.filter ok, acc.2 ++ l.filter (fun c => !(ok c))) := by
  intro l
  induction l with
  | nil => intro acc; simp [deliverLoopE]
  | cons c rest ih =>
    intro acc
    cases h : ok c with
    | true =>
      simp [deliverLoopE, Except.tryCatch, Except.bind, sendText, h, ih, List.filter_cons]
    | false =>
      simp [deliverLoopE, Except.tryCatch, Except.bind, sendText, h, ih, List.filter_cons]

theorem registrants_foldl_disconnect_ne (t t' : Topic) (h : t' ≠ t) :
    ∀ (ds : List Chan) (sm : ActiveConnections),
      registrants (ds.foldl (fun s c => disconnect s t c) sm) t' = registrants sm t' := by
  intro ds
  induction ds with
  | nil => intro sm; rfl
  | cons d ds ih =>
    intro sm
    simp only [List.foldl_cons]
    rw [ih, registrants_disconnect_ne _ _ _ _ h]

theorem registrants_foldl_disconnect (t : Topic) :
    ∀ (ds : List Chan) (sm : ActiveConnections),
      registrants (ds.foldl (fun s c => disconnect s t c) sm) t
        = (registrants sm t).filter (fun x => decide (x ∉ ds)) := by
  intro ds
  induction ds with
  | nil => intro sm; simp
  | cons d ds ih =>
    intro sm
    simp only [List.foldl_cons]
    rw [ih, registrants_disconnect_self, List.filter_filter]
    refine List.filter_congr ?_
    intro x hx
    by_cases h1 : x = d <;> by_cases h2 : x ∈ ds <;> simp [h1, h2]

theorem broadcast_delivered (sm : ActiveConnections) (t : Topic) (ok : Chan → Bool) :
    (broadcast sm t ok).2 = (registrants sm t).filter ok := by
  cases h : lookup sm t with
  | none => simp [broadcast, registrants, h]
  | some l =>
    have hreg : registrants sm t = l := by simp [registrants, h]
    simp [broadcast, h, deliverLoop, hreg]

theorem broadcast_registrants_self (sm : ActiveConnections) (t : Topic) (ok : Chan → Bool) :
    registrants (broadcast sm t ok).1 t = (registrants sm t).filter ok := by
  cases h : lookup sm t with
  | none => simp [broadcast, registrants, h]
  | some l =>
    have hreg : registrants sm t = l := by simp [registrants, h]
    simp only [broadcast, h, deliverLoop]
    rw [registrants_foldl_disconnect, hreg]
    refine List.filter_congr ?_
    intro x hx
    cases hok : ok x with
    | true => simp [List.mem_filter, hok]
    | false => simp [List.mem_filter, hx, hok]

theorem broadcast_registrants_ne (sm : ActiveConnections) (t t' : Topic) (ok : Chan → Bool)
    (h : t' ≠ t) : registrants (broadcast sm t ok).1 t' = registrants sm t' := by
  cases h0 : lookup sm t with
  | none => simp [broadcast, h0]
  | some l =>
    simp only [broadcast, h0, deliverLoop]
    rw [registrants_foldl_disconnect_ne _ _ h]

end SubscriptionManager

/-- Claim C3: for a topic with K registered channels of which J fail
delivery, `broadcast` makes exactly K−J successful deliveries (one to
each non-failing channel, so one channel's failure never blocks
another), removes exactly the J failing channels from the topic's
registrant set, and the per-channel try/except means the delivery loop
never raises to its caller (the upstream event callback). -/
theorem sub_broadcast_fault_isolation (sm : ActiveConnections) (t : Topic) (ok : Chan → Bool) :
    SubscriptionManager.deliverLoopE ok ([], []) (SubscriptionManager.registrants sm t)
        = Except.ok (SubscriptionManager.deliverLoop ok (SubscriptionManager.registrants sm t)) ∧
    (SubscriptionManager.broadcast sm t ok).2
        = (SubscriptionManager.registrants sm t).filter ok ∧
    (SubscriptionManager.broadcast sm t ok).2.length
        = (SubscriptionManager.registrants sm t).length
          - ((SubscriptionManager.registrants sm t).filter (fun c => !(ok c))).length ∧
    SubscriptionManager.registrants (SubscriptionManager.broadcast sm t ok).1 t
        = (SubscriptionManager.registrants sm t).filter ok := by
  refine ⟨?_, SubscriptionManager.broadcast_delivered sm t ok, ?_,
    SubscriptionManager.broadcast_registrants_self sm t ok⟩
  · rw [SubscriptionManager.deliverLoopE_eq_ok]
    simp [SubscriptionManager.deliverLoop]
  · rw [SubscriptionManager.broadcast_delivered]
    have h := SubscriptionManager.length_filter_split ok (SubscriptionManager.registrants sm t)
    omega

/-- Claim C8: registry operations are idempotent: disconnecting a
channel that is not registered under the topic leaves the registry
unchanged (and raises nothing — both operations are total), and
connecting the same channel twice under the same topic yields the same
registry as connecting it once. -/
theorem sub_registry_idempotent (sm : ActiveConnections) (t : Topic) (c : Chan) :
    (c ∉ SubscriptionManager.registrants sm t →
      SubscriptionManager.disconnect sm t c = sm) ∧
    SubscriptionManager.connect (SubscriptionManager.connect sm t c) t c
      = SubscriptionManager.connect sm t c := by
  constructor
  · intro hc
    cases h : SubscriptionManager.lookup sm t with
    | none => simp [SubscriptionManager.disconnect, h]
    | some l =>
      have hl : SubscriptionManager.registrants sm t = l := by
        simp [SubscriptionManager.registrants, h]
      rw [hl] at hc
      have hfl : l.filter (fun x => decide (x ≠ c)) = l := by
        refine List.filter_eq_self.mpr ?_
        intro a ha
        simp only [decide_eq_true_eq]
        exact fun hac => hc (hac ▸ ha)
      simp only [SubscriptionManager.disconnect, h, hfl]
      exact SubscriptionManager.setTopic_of_lookup_eq sm t l h
  · unfold SubscriptionManager.connect
    rw [SubscriptionManager.registrants_setTopic_self,
      SubscriptionManager.insertChan_idem,
      SubscriptionManager.setTopic_setTopic]

theorem numOr0_eq_getD (v : Option ℚ) : numOr0 v = v.getD 0 := by
  cases v with
  | none => rfl
  | some x =>
    by_cases h : x = 0
    · simp [numOr0, truthy, h]
    · simp [numOr0, truthy, h]

/-- Claim C6: on every tick for the subscribed instrument the price
stream emits a message whose `price` field is the upstream last-trade
value when present and `0` when absent — and likewise for `bid`, `ask`
and `volume`; the fields are always present, never null. -/
theorem ws_price_fields_default_zero (t : Ticker) :
    pricePayload t.conId t
      = Option.some
          { type := "price", conId := t.conId, price := t.last.getD 0,
            bid := t.bid.getD 0, ask := t.ask.getD 0,
            volume := t.volume.getD 0 } := by
  simp [pricePayload, numOr0_eq_getD]

/-- Counterexample to claim C7: the upstream bid is present (`Some 0`),
yet the emitted `bids` side is the empty list, because the source tests
the bid with Python truthiness, under which a present zero bid is
indistinguishable from an absent one. -/
theorem ws_orderbook_present_bid_counterexample :
    zeroBidTicker.bid = Option.some 0 ∧
    bookPayload 5 zeroBidTicker
      = Option.some
          { type := "orderbook", bids := [],
            asks := [{ price := 2, quantity := 1 }] } := by
  constructor
  · rfl
  · rfl

/-- Claim C7 as amended: when the upstream bid (respectively ask) is
present and non-zero, the corresponding side is the single top-of-book
`{price, quantity}` entry; when it is absent or zero, that side is the
empty list — never null. -/
theorem ws_orderbook_sides_amended (t : Ticker) :
    bookPayload t.conId t
      = Option.some
          { type := "orderbook", bids := specBookSide t.bid t.bidSize,
            asks := specBookSide t.ask t.askSize } := by
  have hside : ∀ (v : Option ℚ) (size : ℚ),
      (if truthy v then [({ price := v.getD 0, quantity := size } : BookLevel)] else [])
        = specBookSide v size := by
    intro v size
    cases v with
    | none => rfl
    | some x =>
      by_cases h : x = 0
      · simp [truthy, specBookSide, h]
      · simp [truthy, specBookSide, h]
  simp [bookPayload, hside]

theorem count_map_const {α : Type} [DecidableEq α] (x : α) (cs : List Chan) :
    (cs.map (fun _ => x)).count x = cs.length := by
  induction cs with
  | nil => rfl
  | cons c cs ih => simp [List.count_cons, ih]

theorem runFrom_connect_true (conid : Nat) :
    ∀ (cs : List Chan) (s : PriceSys),
      (runFrom s (cs.map (fun c => PEvent.connect c conid true))).upLog
          = s.upLog ++ cs.map (fun _ => UpCall.reqMkt conid) ∧
      (runFrom s (cs.map (fun c => PEvent.connect c conid true))).callbacks
          = s.callbacks ++ cs.map (fun c => (c, conid)) := by
  intro cs
  induction cs with
  | nil => intro s; simp [runFrom]
  | cons c cs ih =>
    intro s
    simp only [List.map_cons, runFrom, PriceSys.step, if_pos]
    rw [(ih _).1, (ih _).2]
    simp

/-- Counterexample to claim C1: starting from the empty registrant set,
two clients register on the same topic; the code issues `reqMktData`
twice and attaches two `onPendingTickers` callbacks for the topic — not
exactly one — because `websocket_price` subscribes unconditionally for
every client instead of gating on a first-registrant signal. -/
theorem ws_price_dup_subscription_counterexample :
    SubscriptionManager.registrants PriceSys.init.registry (Topic.price 100) = [] ∧
    SubscriptionManager.registrants (priceRun dupSubTrace).registry (Topic.price 100)
        = [1, 2] ∧
    (priceRun dupSubTrace).upLog.count (UpCall.reqMkt 100) = 2 ∧
    ((priceRun dupSubTrace).callbacks.filter (fun p => decide (p.2 = 100))).length = 2 := by
  decide

/-- Claim C1 as amended: registration does not deduplicate upstream
subscriptions — N clients registering on a topic (empty or not) produce
N `reqMktData` calls and N attached callbacks for that topic, one per
client. -/
theorem ws_price_per_client_subscription (cs : List Chan) (conid : Nat) :
    (priceRun (cs.map (fun c => PEvent.connect c conid true))).upLog.count
        (UpCall.reqMkt conid) = cs.length ∧
    ((priceRun (cs.map (fun c => PEvent.connect c conid true))).callbacks.filter
        (fun p => decide (p.2 = conid))).length = cs.length := by
  have h := runFrom_connect_true conid cs PriceSys.init
  constructor
  · rw [priceRun, h.1]
    simp [PriceSys.init, count_map_const]
  · rw [priceRun, h.2]
    have hall : (cs.map (fun c => (c, conid))).filter (fun p => decide (p.2 = conid))
        = cs.map (fun c => (c, conid)) := by
      refine List.filter_eq_self.mpr ?_
      intro p hp
      obtain ⟨c, _, rfl⟩ := List.mem_map.mp hp
      simp
    simp [PriceSys.init, hall]

/-- Counterexample to claim C2: after client 1 disconnects, client 2 is
still registered on `price_100` (the registrant set is non-empty), yet
the handler has already issued `cancelMktData` for the topic's
contract: a disconnect cancels the upstream subscription regardless of
remaining registrants, so the handle-iff-non-empty invariant fails. -/
theorem ws_price_cancel_despite_registrants_counterexample :
    SubscriptionManager.registrants (priceRun cancelWhileRegisteredTrace).registry
        (Topic.price 100) = [2] ∧
    (priceRun cancelWhileRegisteredTrace).upLog.count (UpCall.cancelMkt 100) = 1 := by
  decide

/-- Claim C2 as amended: upstream subscribe and cancel calls track
individual clients, not the registrant set: every successful client
registration issues one more `reqMktData` for its topic, and every
streaming client's disconnect issues one more `cancelMktData` for its
topic, even when other clients remain registered on it. -/
theorem ws_price_per_client_cancel (s : PriceSys) (c : Chan) (conid : Nat) :
    (PriceSys.step s (PEvent.connect c conid true)).upLog.count (UpCall.reqMkt conid)
        = s.upLog.count (UpCall.reqMkt conid) + 1 ∧
    ((c, conid) ∈ s.callbacks →
      (PriceSys.step s (PEvent.disconnect c conid)).upLog.count (UpCall.cancelMkt conid)
        = s.upLog.count (UpCall.cancelMkt conid) + 1) := by
  constructor
  · simp [PriceSys.step, List.count_append]
  · intro h
    simp [PriceSys.step, h, List.count_append]

/-- Witness for the amended C2 at a concrete state in which another
client stays registered across the disconnect. -/
theorem ws_price_per_client_cancel_witness :
    (1, 100) ∈ twoClientsState.callbacks ∧
    (PriceSys.step twoClientsState (PEvent.connect 3 100 true)).upLog.count
        (UpCall.reqMkt 100) = twoClientsState.upLog.count (UpCall.reqMkt 100) + 1 ∧
    (PriceSys.step twoClientsState (PEvent.disconnect 1 100)).upLog.count
        (UpCall.cancelMkt 100) = twoClientsState.upLog.count (UpCall.cancelMkt 100) + 1 :=
  ⟨by decide, (ws_price_per_client_cancel twoClientsState 3 100).1,
    (ws_price_per_client_cancel twoClientsState 1 100).2 (by decide)⟩

/-- Counterexample to claim C5: when instrument resolution returns
nothing, the handler closes the socket and returns without calling
`manager.disconnect`: the channel is still in the topic's registrant
set — the registration is not rolled back. -/
theorem ws_price_no_rollback_counterexample :
    SubscriptionManager.registrants (priceRun failedResolveTrace).registry
        (Topic.price 100) = [1] ∧
    (priceRun failedResolveTrace).upLog = [] := by
  decide

/-- Claim C5 as amended: a setup that fails at instrument resolution
closes the connection but leaves the channel registered under the topic
(no rollback); since the failure precedes `reqMktData`, no upstream
subscription is created on this path and none leaks, and no callback is
attached. -/
theorem ws_price_failed_setup_keeps_registration (s : PriceSys) (c : Chan) (conid : Nat) :
    c ∈ SubscriptionManager.registrants
        (PriceSys.step s (PEvent.connect c conid false)).registry (Topic.price conid) ∧
    (PriceSys.step s (PEvent.connect c conid false)).upLog = s.upLog ∧
    (PriceSys.step s (PEvent.connect c conid false)).callbacks = s.callbacks := by
  refine ⟨?_, rfl, rfl⟩
  simp only [PriceSys.step, Bool.false_eq_true, if_false]
  rw [SubscriptionManager.registrants_connect_self]
  exact SubscriptionManager.mem_insertChan_self _ _

theorem countP_map_pair_ne (t1 t2 : Topic) (h : t1 ≠ t2) :
    ∀ l : List Chan,
      (l.map (fun ch => (t1, ch))).countP (fun p => decide (p.1 = t2)) = 0 := by
  intro l
  induction l with
  | nil => rfl
  | cons a l ih => simp [List.countP_cons, ih, h]

theorem fireCallback_preserves_empty (conid n : Nat) (ok : Chan → Bool) (st : PriceSys)
    (h : SubscriptionManager.registrants st.registry (Topic.price conid) = []) :
    SubscriptionManager.registrants (fireCallback n ok st).registry (Topic.price conid)
        = [] ∧
    (fireCallback n ok st).dLog.countP (fun p => decide (p.1 = Topic.price conid))
      = st.dLog.countP (fun p => decide (p.1 = Topic.price conid)) := by
  by_cases hn : n = conid
  · subst hn
    have hreg := SubscriptionManager.broadcast_registrants_self st.registry (Topic.price n) ok
    have hdel := SubscriptionManager.broadcast_delivered st.registry (Topic.price n) ok
    rw [h] at hreg hdel
    constructor
    · simp only [fireCallback]
      rw [hreg]
      rfl
    · simp only [fireCallback]
      rw [hdel]
      simp
  · have hne : Topic.price conid ≠ Topic.price n := by simp [Ne.symm hn]
    constructor
    · simp only [fireCallback]
      rw [SubscriptionManager.broadcast_registrants_ne _ _ _ _ hne]
      exact h
    · simp only [fireCallback, List.countP_append]
      rw [countP_map_pair_ne (Topic.price n) (Topic.price conid) (Ne.symm hne)]
      omega

theorem step_preserves_empty (conid : Nat) (s : PriceSys) (e : PEvent)
    (he : ∀ c n r, e = PEvent.connect c n r → n ≠ conid)
    (h : SubscriptionManager.registrants s.registry (Topic.price conid) = []) :
    SubscriptionManager.registrants (PriceSys.step s e).registry (Topic.price conid)
        = [] ∧
    (PriceSys.step s e).dLog.countP (fun p => decide (p.1 = Topic.price conid))
      = s.dLog.countP (fun p => decide (p.1 = Topic.price conid)) := by
  cases e with
  | connect c n r =>
    have hn : n ≠ conid := he c n r rfl
    have hne : Topic.price conid ≠ Topic.price n := by simp [Ne.symm hn]
    cases r with
    | true =>
      constructor
      · simp only [PriceSys.step, if_pos]
        rw [SubscriptionManager.registrants_connect_ne _ _ _ _ hne]
        exact h
      · simp [PriceSys.step]
    | false =>
      constructor
      · simp only [PriceSys.step, Bool.false_eq_true, if_false]
        rw [SubscriptionManager.registrants_connect_ne _ _ _ _ hne]
        exact h
      · simp [PriceSys.step]
  | disconnect c n =>
    by_cases hmem : (c, n) ∈ s.callbacks
    · constructor
      · simp only [PriceSys.step, if_pos hmem]
        by_cases hn : n = conid
        · subst hn
          rw [SubscriptionManager.registrants_disconnect_self, h]
          rfl
        · rw [SubscriptionManager.registrants_disconnect_ne _ _ _ _ (by simp [Ne.symm hn])]
          exact h
      · simp [PriceSys.step, hmem]
    · constructor
      · simp only [PriceSys.step, if_neg hmem]
        exact h
      · simp [PriceSys.step, hmem]
  | tick n fails =>
    have hfold : ∀ (cbs : List (Chan × Nat)) (st : PriceSys),
        SubscriptionManager.registrants st.registry (Topic.price conid) = [] →
        SubscriptionManager.registrants
            (cbs.foldl
              (fun st2 _ => fireCallback n (fun ch => decide (ch ∉ fails)) st2) st).registry
            (Topic.price conid) = [] ∧
        (cbs.foldl
            (fun st2 _ => fireCallback n (fun ch => decide (ch ∉ fails)) st2) st).dLog.countP
            (fun p => decide (p.1 = Topic.price conid))
          = st.dLog.countP (fun p => decide (p.1 = Topic.price conid)) := by
      intro cbs
      induction cbs with
      | nil => intro st hst; exact ⟨hst, rfl⟩
      | cons cb cbs ih =>
        intro st hst
        simp only [List.foldl_cons]
        have hf :=
          fireCallback_preserves_empty conid n (fun ch => decide (ch ∉ fails)) st hst
        have hrest := ih _ hf.1
        exact ⟨hrest.1, hrest.2.trans hf.2⟩
    simp only [PriceSys.step]
    exact hfold _ s h

theorem runFrom_preserves_empty (conid : Nat) :
    ∀ (post : List PEvent) (s : PriceSys),
      noConnectOn post conid = true →
      SubscriptionManager.registrants s.registry (Topic.price conid) = [] →
      SubscriptionManager.registrants (runFrom s post).registry (Topic.price conid) = [] ∧
      (runFrom s post).dLog.countP (fun p => decide (p.1 = Topic.price conid))
        = s.dLog.countP (fun p => decide (p.1 = Topic.price conid)) := by
  intro post
  induction post with
  | nil => intro s _ h; exact ⟨h, rfl⟩
  | cons e post ih =>
    intro s hno h
    have hall : ∀ x ∈ e :: post, (fun e2 =>
        match e2 with
        | PEvent.connect _ n _ => decide (n ≠ conid)
        | _ => true) x = true := List.all_eq_true.mp hno
    have hno' : noConnectOn post conid = true :=
      List.all_eq_true.mpr (fun x hx => hall x (List.mem_cons_of_mem _ hx))
    have hee : ∀ c n r, e = PEvent.connect c n r → n ≠ conid := by
      intro c n r hre
      have hx := hall e (List.mem_cons_self _ _)
      rw [hre] at hx
      simpa using hx
    have hstep := step_preserves_empty conid s e hee h
    have hrest := ih (PriceSys.step s e) hno' hstep.1
    exact ⟨hrest.1, hrest.2.trans hstep.2⟩

/-- Counterexample to claim C4: after the last registered client of
`price_100` disconnects (its registrant set is empty and exactly one
cancellation was issued), the callback of the channel that had been
pruned for failed delivery is still attached, and a further tick still
invokes `manager.broadcast` for the topic — the broadcast count rises
from 2 to 3 with no new registrant — so the event callback is not
detached and broadcasts for the topic do not stop. -/
theorem ws_price_stale_callback_counterexample :
    SubscriptionManager.registrants (priceRun staleCbMid).registry (Topic.price 100)
        = [] ∧
    (priceRun staleCbMid).upLog.count (UpCall.cancelMkt 100) = 1 ∧
    (priceRun staleCbFull).callbacks = [(2, 100)] ∧
    (priceRun staleCbMid).bLog.count (Topic.price 100) = 2 ∧
    (priceRun staleCbFull).bLog.count (Topic.price 100) = 3 := by
  decide

/-- Claim C4 as amended: when a streaming client disconnects and the
topic's registrant set is empty afterwards, exactly one upstream
cancellation is issued by that disconnect and the disconnecting
client's own callback is detached; and as long as no new client
registers on the topic, no further message is delivered to any channel
for that topic — although callbacks of clients that were pruned for
failed delivery may remain attached and keep invoking empty
broadcasts. -/
theorem ws_price_last_disconnect (pre post : List PEvent) (c : Chan) (conid : Nat)
    (hcb : (c, conid) ∈ (priceRun pre).callbacks)
    (hlast : SubscriptionManager.registrants
        (PriceSys.step (priceRun pre) (PEvent.disconnect c conid)).registry
        (Topic.price conid) = [])
    (hpost : noConnectOn post conid = true) :
    (PriceSys.step (priceRun pre) (PEvent.disconnect c conid)).upLog.count
        (UpCall.cancelMkt conid)
      = (priceRun pre).upLog.count (UpCall.cancelMkt conid) + 1 ∧
    (c, conid) ∉ (PriceSys.step (priceRun pre) (PEvent.disconnect c conid)).callbacks ∧
    (runFrom (PriceSys.step (priceRun pre) (PEvent.disconnect c conid)) post).dLog.countP
        (fun p => decide (p.1 = Topic.price conid))
      = (PriceSys.step (priceRun pre) (PEvent.disconnect c conid)).dLog.countP
        (fun p => decide (p.1 = Topic.price conid)) := by
  refine ⟨?_, ?_, (runFrom_preserves_empty conid post _ hpost hlast).2⟩
  · simp [PriceSys.step, hcb, List.count_append]
  · simp [PriceSys.step, hcb, List.mem_filter]

/-- Witness for the amended C4 at a concrete trace: the sole client of
`price_100` disconnects; a later tick and a registration on another
topic deliver nothing for `price_100`. -/
theorem ws_price_last_disconnect_witness :
    (1, 100) ∈ (priceRun lastDiscPre).callbacks ∧
    ((PriceSys.step (priceRun lastDiscPre) (PEvent.disconnect 1 100)).upLog.count
        (UpCall.cancelMkt 100)
      = (priceRun lastDiscPre).upLog.count (UpCall.cancelMkt 100) + 1 ∧
    (1, 100) ∉ (PriceSys.step (priceRun lastDiscPre) (PEvent.disconnect 1 100)).callbacks ∧
    (runFrom (PriceSys.step (priceRun lastDiscPre) (PEvent.disconnect 1 100))
        lastDiscPost).dLog.countP (fun p => decide (p.1 = Topic.price 100))
      = (PriceSys.step (priceRun lastDiscPre) (PEvent.disconnect 1 100)).dLog.countP
        (fun p => decide (p.1 = Topic.price 100))) :=
  ⟨by decide,
    ws_price_last_disconnect lastDiscPre lastDiscPost 1 100 (by decide) (by decide)
      (by decide)⟩

theorem foldl_matching_all_fail (reqMatching : String → Except String (List Nat))
    (h : ∀ p, ∃ e, reqMatching p = Except.error e) :
    ∀ (patterns : List String) (acc : List Nat × List Nat),
      patterns.foldl
        (fun acc2 p =>
          match reqMatching p with
          | Except.ok contracts => contracts.foldl dedupFold acc2
          | Except.error _ => acc2) acc = acc := by
  intro patterns
  induction patterns with
  | nil => intro acc; rfl
  | cons p ps ih =>
    intro acc
    obtain ⟨e, he⟩ := h p
    simp only [List.foldl_cons, he]
    exact ih acc

/-- Counterexample to claim C9: with the upstream session connected but
every matching-symbols request failing upstream, `search_contracts`
swallows the failures and returns a success-class empty list — not an
error-class response carrying a human-readable cause. -/
theorem search_contracts_swallows_failure_counterexample :
    search_contracts { isConnected := true } failingMatching ("ES")
      = HResp.ok ([] : List Nat) := by
  rfl

/-- Claim C9 as amended: every handler answers 503 "Not connected" when
the upstream session reports disconnected, without consulting the
upstream (the response does not depend on the upstream request
functions); on other failures `load_data` returns an error-class 500
response carrying the cause, while `search_contracts` swallows upstream
failures and returns a success-class empty list. -/
theorem handlers_error_envelopes (managedAccounts : List String)
    (reqMatching : String → Except String (List Nat))
    (reqContractDetails : Nat → Except String (List Nat))
    (reqHistoricalData : Nat → String → String → Except String (List Candle))
    (symbol interval : String) (conId limit : Nat) (duration : Option String) :
    (get_accounts { isConnected := false } managedAccounts
        = HResp.httpError 503 ("Not connected") ∧
      search_contracts { isConnected := false } reqMatching symbol
        = HResp.httpError 503 ("Not connected") ∧
      load_data { isConnected := false } reqContractDetails reqHistoricalData conId
          interval limit duration
        = HResp.httpError 503 ("Not connected")) ∧
    ((∀ p, ∃ e, reqMatching p = Except.error e) →
      search_contracts { isConnected := true } reqMatching symbol
        = HResp.ok []) ∧
    (∀ e, reqContractDetails conId = Except.error e →
      load_data { isConnected := true } reqContractDetails reqHistoricalData conId
          interval limit duration
        = HResp.httpError 500 e) ∧
    (∀ e full_contract rest,
      reqContractDetails conId = Except.ok (full_contract :: rest) →
      reqHistoricalData full_contract (duration.getD ("1 D")) interval
          = Except.error e →
      load_data { isConnected := true } reqContractDetails reqHistoricalData conId
          interval limit duration
        = HResp.httpError 500 e) := by
  refine ⟨⟨rfl, rfl, rfl⟩, ?_, ?_, ?_⟩
  · intro h
    have hc : collectMatches reqMatching (search_patterns symbol) = ([], []) := by
      unfold collectMatches
      exact foldl_matching_all_fail reqMatching h (search_patterns symbol) ([], [])
    simp [search_contracts, hc]
  · intro e he
    simp [load_data, he]
  · intro e full_contract rest hcd hh
    simp [load_data, hcd, hh]

/-- Witness for the amended C9 at concrete upstream behaviours. -/
theorem handlers_error_envelopes_witness :
    (get_accounts { isConnected := false } []
        = HResp.httpError 503 ("Not connected") ∧
      search_contracts { isConnected := false } failingMatching ("ES")
        = HResp.httpError 503 ("Not connected") ∧
      load_data { isConnected := false } (fun _ => Except.error ("down"))
          (fun _ _ _ => Except.error ("down")) 7 ("1 min") 100 Option.none
        = HResp.httpError 503 ("Not connected")) ∧
    search_contracts { isConnected := true } failingMatching ("ES")
        = HResp.ok [] ∧
    load_data { isConnected := true } (fun _ => Except.error ("down"))
        (fun _ _ _ => Except.error ("down")) 7 ("1 min") 100 Option.none
      = HResp.httpError 500 ("down") := by
  have H := handlers_error_envelopes [] failingMatching
    (fun _ => Except.error ("down")) (fun _ _ _ => Except.error ("down"))
    ("ES") ("1 min") 7 100 Option.none
  exact ⟨H.1, H.2.1 (fun p => ⟨"boom", rfl⟩), H.2.2.1 ("down") rfl⟩

/-- Claim C10: the health endpoint succeeds for every upstream
connection state and always reports status "healthy"; upstream
connectivity is carried only by the `ib_connected` boolean, never by
the status value or an error response. -/
theorem health_check_always_healthy (connected : Bool) (cfg : Config) :
    health_check { isConnected := connected } cfg
      = HResp.ok
          { status := "healthy", ib_connected := connected,
            ib_host := cfg.ib_host, ib_port := cfg.ib_port,
            proxy_host := cfg.proxy_host, proxy_port := cfg.proxy_port } := rfl

/-- Witness for C8 at a concrete registry. -/
theorem sub_registry_idempotent_witness :
    SubscriptionManager.disconnect [(Topic.price 1, [4])] (Topic.price 1) 9
        = [(Topic.price 1, [4])] ∧
    SubscriptionManager.connect
        (SubscriptionManager.connect [(Topic.price 1, [4])] (Topic.price 1) 9)
        (Topic.price 1) 9
      = SubscriptionManager.connect [(Topic.price 1, [4])] (Topic.price 1) 9 :=
  ⟨(sub_registry_idempotent [(Topic.price 1, [4])] (Topic.price 1) 9).1 (by decide),
    (sub_registry_idempotent [(Topic.price 1, [4])] (Topic.price 1) 9).2⟩

end IbkrProxy
